import Mathlib

/-!
Shallow embedding of the Orders service router (orders routes file) and the
gateway health aggregator (gateway server file) of the bookstore
microservices repository.

Modelling conventions:
* JavaScript numbers are modelled as rationals; a JavaScript value that is
  NaN (or `undefined` propagated through arithmetic) is modelled as `none`
  in the type `JSNum := Option ℚ`.
* The Catalog Service lookup (`axios.get` of the books URL) is modelled by
  an oracle `catalog : String → CatalogResp`: `CatalogResp.err` means the
  promise rejected (timeout, network error, non-2xx status), while
  `CatalogResp.ok p` means a 2xx response whose body's `price` field is `p`
  (`p = none` models a response without a numeric price, in which case the
  code reads `undefined`).
* The Identity Service lookup outcome is a `Bool` parameter `identityOk`;
  the source awaits the call inside a try/catch and ignores both outcomes.
* Nondeterministic values (uuid, timestamps) are passed in as parameters.
* The list of bookIds for which a catalog lookup was issued is returned as
  an explicit trace, in the order the lookups were issued.
-/

/-- A JavaScript number: `none` models NaN (or `undefined` fed into
arithmetic), `some q` models an ordinary numeric value. -/
abbrev JSNum := Option ℚ

/-- JavaScript multiplication on our number model: anything involving
NaN/undefined is NaN. -/
def jsMul : JSNum → JSNum → JSNum
  | some a, some b => some (a * b)
  | _, _ => none

/-- JavaScript addition on our number model: anything involving
NaN/undefined is NaN. -/
def jsAdd : JSNum → JSNum → JSNum
  | some a, some b => some (a + b)
  | _, _ => none

/-- `Number.parseFloat(x.toFixed(2))` on an ordinary number: round to two
decimal places (ties toward positive infinity, matching `toFixed`, which
picks the larger candidate integer numerator on a tie). -/
def round2 (q : ℚ) : ℚ := (⌊q * 100 + 1 / 2⌋ : ℚ) / 100

/-- `Number.parseFloat(x.toFixed(2))` on a JavaScript number; NaN stays
NaN. -/
def jsRound2 : JSNum → JSNum := Option.map round2

/-- An order line as stored: `price` is the resolved book price
(`none` = `undefined`, when the catalog answered 2xx without a numeric
price field). -/
structure OrderItem where
  bookId : String
  quantity : ℚ
  price : JSNum
deriving Repr, DecidableEq

/-- An order record as stored in the in-memory `orders` array. -/
structure Order where
  id : String
  userId : String
  items : List OrderItem
  totalAmount : JSNum
  status : String
  createdAt : String
deriving Repr, DecidableEq

/-- The in-memory order store (`orders` array), in insertion order. -/
abbrev Store := List Order

/-- A request item `{bookId, quantity}`: `bookId = none` models a missing
field (a present empty string is `some ""`, also falsy in the source's
check). -/
structure ReqItem where
  bookId : Option String
  quantity : ℚ
deriving Repr, DecidableEq

/-- Outcome of an `axios.get` of the catalog (books) service. -/
inductive CatalogResp where
  | err
  | ok (price : Option ℚ)
deriving Repr, DecidableEq

/-- `!item.bookId || !item.quantity || item.quantity <= 0` from the item
loop of the order-creation handler (`0` is the only falsy plain number we
model, so `!item.quantity` is `quantity = 0`). -/
def itemInvalid (it : ReqItem) : Bool :=
  (match it.bookId with
   | none => true
   | some s => decide (s = "")) || decide (it.quantity = 0) || decide (it.quantity ≤ 0)

/-- Resolution of one item's unit price: on a rejected lookup the `catch`
keeps the default `10.99`; on a 2xx response the code reads
`bookResponse.data.price` as-is. -/
def resolvePrice : CatalogResp → JSNum
  | CatalogResp.err => some (1099 / 100)
  | CatalogResp.ok p => p

/-- Result of the order-creation handler. -/
inductive CreateResult where
  | badRequest (error : String)
  | created (order : Order)
deriving Repr, DecidableEq

/-- The `for (const item of items)` loop of the creation handler: validates
each item, then issues the catalog lookup for it, accumulating the running
`totalAmount`, the built `orderItems` (reversed accumulator) and the trace
of issued catalog lookups (reversed accumulator).  Returns `none` when the
loop aborted with a 400 on the first invalid item. -/
def runItems (catalog : String → CatalogResp) :
    List ReqItem → JSNum → List OrderItem → List String →
    Option (JSNum × List OrderItem) × List String
  | [], total, acc, tr => (some (total, acc.reverse), tr.reverse)
  | it :: rest, total, acc, tr =>
    if itemInvalid it then (none, tr.reverse)
    else
      match it.bookId with
      | none => (none, tr.reverse)
      | some bid =>
        let bookPrice := resolvePrice (catalog bid)
        let itemTotal := jsMul bookPrice (some it.quantity)
        runItems catalog rest (jsAdd total itemTotal)
          ({ bookId := bid, quantity := it.quantity, price := bookPrice } :: acc)
          (bid :: tr)

/-- The `POST /` order-creation handler.  `identityOk` is the outcome of
the best-effort Identity Service lookup; the source ignores it (the lookup
sits in a try/catch whose catch only logs).  Returns the HTTP-level
result, the updated store, and the trace of catalog lookups issued. -/
def create (catalog : String → CatalogResp) (identityOk : Bool)
    (newId createdAt userId : String) (items : List ReqItem)
    (store : Store) : CreateResult × Store × List String :=
  if userId = "" ∨ items = [] then
    (CreateResult.badRequest "UserId and items are required", store, [])
  else
    match runItems catalog items (some 0) [] [] with
    | (none, tr) =>
      (CreateResult.badRequest "Each item must have bookId and positive quantity", store, tr)
    | (some (total, lines), tr) =>
      let newOrder : Order :=
        { id := newId, userId := userId, items := lines,
          totalAmount := jsRound2 total, status := "pending", createdAt := createdAt }
      (CreateResult.created newOrder, store ++ [newOrder], tr)

/-- The five recognized status values of the PATCH handler. -/
def validStatuses : List String :=
  ["pending", "confirmed", "shipped", "delivered", "cancelled"]

/-- `orders.findIndex(o => o.id === id)` followed by the in-place
`orders[orderIndex].status = status` mutation, expressed structurally on
the list: update the first order whose id matches, returning the updated
order and store, or `none` when no order matches. -/
def updateStatus (id status : String) : Store → Option (Order × Store)
  | [] => none
  | o :: rest =>
    if o.id = id then
      some ({ o with status := status }, { o with status := status } :: rest)
    else
      match updateStatus id status rest with
      | none => none
      | some (o', rest') => some (o', o :: rest')

/-- Result of the `PATCH /:id/status` handler. -/
inductive PatchResult where
  | badRequest (error : String)
  | notFound (error : String)
  | ok (order : Order)
deriving Repr, DecidableEq

/-- The `PATCH /:id/status` handler: status validation first (400), then
lookup by id (404), then unconditional overwrite of the status field. -/
def setStatus (id status : String) (store : Store) : PatchResult × Store :=
  if status = "" ∨ ¬ status ∈ validStatuses then
    (PatchResult.badRequest "Valid status is required", store)
  else
    match updateStatus id status store with
    | none => (PatchResult.notFound "Order not found", store)
    | some (o, store') => (PatchResult.ok o, store')

/-- Result of the `DELETE /:id` handler. -/
inductive CancelResult where
  | notFound (error : String)
  | ok (message : String) (order : Order)
deriving Repr, DecidableEq

/-- The `DELETE /:id` handler: lookup by id (404 when absent), then set
the status to "cancelled" unconditionally; the order stays in the store. -/
def cancel (id : String) (store : Store) : CancelResult × Store :=
  match updateStatus id "cancelled" store with
  | none => (CancelResult.notFound "Order not found", store)
  | some (o, store') => (CancelResult.ok "Order cancelled successfully" o, store')

/-- The `GET /` list handler: start from the whole store, filter by userId
when that query parameter is truthy, then by status when that one is
(`none` models an absent or empty query parameter). -/
def listOrders (userId? status? : Option String) (store : Store) : List Order :=
  let afterUser :=
    match userId? with
    | none => store
    | some u => store.filter (fun o => o.userId = u)
  match status? with
  | none => afterUser
  | some s => afterUser.filter (fun o => o.status = s)

/-- Status value of one backend in the gateway health response. -/
inductive HStatus where
  | healthy
  | unhealthy
  | unknown
deriving Repr, DecidableEq

/-- The gateway `GET /health` response body. -/
structure HealthResp where
  gateway : String
  timestamp : String
  books : HStatus
  users : HStatus
  orders : HStatus
deriving Repr, DecidableEq

/-- The gateway `GET /health` handler.  The three service fields start as
"unknown"; inside the outer try, each backend is probed with a 2000 ms
timeout inside its own try/catch, so each field becomes healthy on a 2xx
response within the timeout and unhealthy otherwise.  `axiosOk = false`
models the outer try failing before any probe is issued (the `require`
call throwing), leaving every field "unknown".  The gateway's own field is
the literal "healthy" in every case. -/
def checkAll (axiosOk booksUp usersUp ordersUp : Bool) (ts : String) : HealthResp :=
  if axiosOk then
    { gateway := "healthy", timestamp := ts,
      books := if booksUp then HStatus.healthy else HStatus.unhealthy,
      users := if usersUp then HStatus.healthy else HStatus.unhealthy,
      orders := if ordersUp then HStatus.healthy else HStatus.unhealthy }
  else
    { gateway := "healthy", timestamp := ts,
      books := HStatus.unknown, users := HStatus.unknown, orders := HStatus.unknown }

/-- Characterization of the item loop when every item is valid and every
item's price resolves to a known value `f bookId` (covers both the
all-successful-lookup case and the all-default case). -/
lemma runItems_resolved (catalog : String → CatalogResp) (f : String → ℚ)
    (items : List (String × ℚ))
    (hv : ∀ p ∈ items, p.1 ≠ "" ∧ 0 < p.2)
    (hc : ∀ p ∈ items, resolvePrice (catalog p.1) = some (f p.1)) :
    ∀ (t : ℚ) (acc : List OrderItem) (tr : List String),
      runItems catalog (items.map fun p => ⟨some p.1, p.2⟩) (some t) acc tr =
        (some (some (t + (items.map fun p => f p.1 * p.2).sum),
               acc.reverse ++ items.map fun p => ⟨p.1, p.2, some (f p.1)⟩),
         tr.reverse ++ items.map Prod.fst) := by
  induction items with
  | nil => intro t acc tr; simp [runItems]
  | cons p rest ih =>
    intro t acc tr
    obtain ⟨hb, hq⟩ := hv p (List.mem_cons_self p rest)
    have hcp := hc p (List.mem_cons_self p rest)
    have hinv : itemInvalid ⟨some p.1, p.2⟩ = false := by
      simp [itemInvalid, hb, hq.ne', hq.not_le]
    simp only [List.map_cons, runItems, hinv, Bool.false_eq_true, if_false, hcp,
      jsMul, jsAdd]
    rw [ih (fun q hq => hv q (List.mem_cons_of_mem p hq))
          (fun q hq => hc q (List.mem_cons_of_mem p hq))]
    simp [List.reverse_cons, List.append_assoc, add_assoc]

/-- Characterization of the item loop when some item is invalid: it aborts
at the first invalid item, having issued catalog lookups exactly for the
valid items preceding it. -/
lemma runItems_abort (catalog : String → CatalogResp) :
    ∀ (items : List ReqItem), (∃ it ∈ items, itemInvalid it = true) →
    ∀ (total : JSNum) (acc : List OrderItem) (tr : List String),
      runItems catalog items total acc tr =
        (none, tr.reverse ++
          ((items.takeWhile fun it => ! itemInvalid it).map fun it => it.bookId.getD "")) := by
  intro items
  induction items with
  | nil => rintro ⟨it, h, -⟩; simp at h
  | cons it rest ih =>
    rintro ⟨it0, hmem, hbad⟩ total acc tr
    by_cases hinv : itemInvalid it = true
    · simp [runItems, hinv, List.takeWhile_cons]
    · have hrest : ∃ it1 ∈ rest, itemInvalid it1 = true := by
        rcases List.mem_cons.mp hmem with h | h
        · exact absurd (h ▸ hbad) hinv
        · exact ⟨it0, h, hbad⟩
      have hbook : ∃ b, it.bookId = some b := by
        cases h : it.bookId with
        | none => exact absurd (by simp [itemInvalid, h]) hinv
        | some b => exact ⟨b, rfl⟩
      obtain ⟨b, hb⟩ := hbook
      simp only [runItems, hinv, if_false, hb]
      rw [ih hrest]
      simp [List.takeWhile_cons, hinv, hb, List.reverse_cons, List.append_assoc]

/-- When no order in the store has the given id, `updateStatus` finds
nothing. -/
lemma updateStatus_eq_none (id st : String) (store : Store)
    (h : ∀ o ∈ store, o.id ≠ id) : updateStatus id st store = none := by
  induction store with
  | nil => rfl
  | cons o rest ih =>
    simp only [updateStatus, h o (List.mem_cons_self o rest), if_false]
    rw [ih (fun q hq => h q (List.mem_cons_of_mem o hq))]

/-- `updateStatus` on a store split around the first order with the given
id rewrites exactly that order's status and leaves everything else in
place. -/
lemma updateStatus_append (id st : String) (pre post : List Order) (o : Order)
    (hpre : ∀ p ∈ pre, p.id ≠ id) (ho : o.id = id) :
    updateStatus id st (pre ++ o :: post) =
      some ({ o with status := st }, pre ++ { o with status := st } :: post) := by
  induction pre with
  | nil => simp [updateStatus, ho]
  | cons p rest ih =>
    simp only [List.cons_append, updateStatus,
      hpre p (List.mem_cons_self p rest), if_false]
    rw [List.append_eq, ih (fun q hq => hpre q (List.mem_cons_of_mem p hq))]

/-- Claim C1: for every valid creation request (non-empty items, each with a
bookId and positive quantity) in which the catalog lookup for item
`p` succeeds with price `f p.1`, the created order has one line per input
item carrying that price, its totalAmount is the rounded sum of price
times quantity, its status is "pending", and it is appended to the store;
the witness instantiates the spec's example (u1, b1, quantity 2,
price 12.99, total 25.98). -/
theorem create_prices_and_total (catalog : String → CatalogResp) (f : String → ℚ)
    (identityOk : Bool) (newId createdAt userId : String)
    (items : List (String × ℚ)) (store : Store)
    (hu : userId ≠ "") (hne : items ≠ [])
    (hv : ∀ p ∈ items, p.1 ≠ "" ∧ 0 < p.2)
    (hc : ∀ p ∈ items, catalog p.1 = CatalogResp.ok (some (f p.1))) :
    create catalog identityOk newId createdAt userId
        (items.map fun p => ⟨some p.1, p.2⟩) store =
      (CreateResult.created
        { id := newId, userId := userId,
          items := items.map fun p => ⟨p.1, p.2, some (f p.1)⟩,
          totalAmount := some (round2 ((items.map fun p => f p.1 * p.2).sum)),
          status := "pending", createdAt := createdAt },
       store ++ [⟨newId, userId, items.map fun p => ⟨p.1, p.2, some (f p.1)⟩,
          some (round2 ((items.map fun p => f p.1 * p.2).sum)), "pending", createdAt⟩],
       items.map Prod.fst) := by
  have hc' : ∀ p ∈ items, resolvePrice (catalog p.1) = some (f p.1) := fun p hp => by
    rw [hc p hp]; rfl
  have hne' : ¬ (userId = "" ∨
      (items.map fun p : String × ℚ => (⟨some p.1, p.2⟩ : ReqItem)) = []) := by
    push_neg
    exact ⟨hu, by simpa using hne⟩
  unfold create
  rw [if_neg hne', runItems_resolved catalog f items hv hc' 0 [] []]
  simp [jsRound2]

/-- Witness for C1 at the spec's concrete example. -/
theorem create_prices_and_total_witness :
    create (fun _ => CatalogResp.ok (some (1299 / 100))) true "o1" "t1" "u1"
        [{ bookId := some "b1", quantity := 2 }] [] =
      (CreateResult.created
        { id := "o1", userId := "u1",
          items := [{ bookId := "b1", quantity := 2, price := some (1299 / 100) }],
          totalAmount := some (2598 / 100), status := "pending", createdAt := "t1" },
       [{ id := "o1", userId := "u1",
          items := [{ bookId := "b1", quantity := 2, price := some (1299 / 100) }],
          totalAmount := some (2598 / 100), status := "pending", createdAt := "t1" }],
       ["b1"]) := by
  have h := create_prices_and_total (fun _ => CatalogResp.ok (some (1299 / 100)))
    (fun _ => 1299 / 100) true "o1" "t1" "u1" [("b1", 2)] []
    (by simp) (by simp)
    (by intro p hp; simp at hp; rw [hp]; exact ⟨by simp, by norm_num⟩)
    (fun p _ => rfl)
  simp only [List.map_cons, List.map_nil, List.sum_cons, List.sum_nil] at h
  norm_num [round2, Int.floor_eq_iff] at h ⊢
  exact h

/-- Claim C2 (amended): a creation request containing an invalid item fails
with the 400 validation error and appends no order, but catalog lookups
are issued for the valid items preceding the first invalid one (so not
necessarily before any pricing lookup). -/
theorem create_invalid_item_aborts (catalog : String → CatalogResp)
    (identityOk : Bool) (newId createdAt userId : String)
    (items : List ReqItem) (store : Store)
    (hu : userId ≠ "")
    (h : ∃ it ∈ items, itemInvalid it = true) :
    create catalog identityOk newId createdAt userId items store =
      (CreateResult.badRequest "Each item must have bookId and positive quantity", store,
       (items.takeWhile fun it => ! itemInvalid it).map fun it => it.bookId.getD "") := by
  have hne : items ≠ [] := by
    rintro rfl
    obtain ⟨it, hmem, -⟩ := h
    simp at hmem
  unfold create
  rw [if_neg (by push_neg; exact ⟨hu, hne⟩), runItems_abort catalog items h (some 0) [] []]
  simp

/-- Witness for the amended C2: a request whose second item lacks a bookId
fails with 400 and leaves the store unchanged, yet the catalog lookup for
the first (valid) item was already issued. -/
theorem create_invalid_item_aborts_witness :
    create (fun _ => CatalogResp.ok (some 5)) true "o1" "t1" "u1"
        [{ bookId := some "b1", quantity := 1 }, { bookId := none, quantity := 1 }] [] =
      (CreateResult.badRequest "Each item must have bookId and positive quantity", [],
       ["b1"]) := by
  have h := create_invalid_item_aborts (fun _ => CatalogResp.ok (some 5)) true "o1" "t1" "u1"
    [{ bookId := some "b1", quantity := 1 }, { bookId := none, quantity := 1 }] []
    (by simp) ⟨{ bookId := none, quantity := 1 }, by simp, by simp [itemInvalid]⟩
  simpa [itemInvalid, List.takeWhile_cons] using h

/-- Counterexample to C2 as stated: this request contains an invalid item
(the second lacks a bookId) and does fail with 400 without appending an
order, but the trace of issued catalog lookups is nonempty, so the failure
does not happen before any catalog pricing lookup is issued. -/
theorem create_invalid_item_lookup_cex :
    create (fun _ => CatalogResp.ok (some 5)) true "o1" "t1" "u1"
        [{ bookId := some "b1", quantity := 1 }, { bookId := none, quantity := 1 }] [] =
      (CreateResult.badRequest "Each item must have bookId and positive quantity", [],
       ["b1"]) ∧
    (["b1"] : List String) ≠ [] := by
  constructor
  · simp only [create, runItems, itemInvalid, resolvePrice, jsMul, jsAdd]
    norm_num
    simp
  · simp

/-- Claim C4 (amended): for every valid creation request in which the
catalog lookup for every item is rejected (timeout or error), each stored
line's price is the configured default 10.99, the totalAmount is the
rounded sum of default price times quantity, and creation still succeeds
with a created order; a successful catalog response without a numeric
price is instead stored as-is (see the counterexample), so catalog
unavailability alone never fails an order but malformed responses do not
receive the default. -/
theorem create_catalog_err_defaults (catalog : String → CatalogResp)
    (identityOk : Bool) (newId createdAt userId : String)
    (items : List (String × ℚ)) (store : Store)
    (hu : userId ≠ "") (hne : items ≠ [])
    (hv : ∀ p ∈ items, p.1 ≠ "" ∧ 0 < p.2)
    (hc : ∀ p ∈ items, catalog p.1 = CatalogResp.err) :
    create catalog identityOk newId createdAt userId
        (items.map fun p => ⟨some p.1, p.2⟩) store =
      (CreateResult.created
        { id := newId, userId := userId,
          items := items.map fun p => ⟨p.1, p.2, some (1099 / 100)⟩,
          totalAmount := some (round2 ((items.map fun p => 1099 / 100 * p.2).sum)),
          status := "pending", createdAt := createdAt },
       store ++ [⟨newId, userId, items.map fun p => ⟨p.1, p.2, some (1099 / 100)⟩,
          some (round2 ((items.map fun p => 1099 / 100 * p.2).sum)), "pending", createdAt⟩],
       items.map Prod.fst) := by
  have hc' : ∀ p ∈ items, resolvePrice (catalog p.1) = some ((fun _ => (1099 : ℚ) / 100) p.1) :=
    fun p hp => by rw [hc p hp]; rfl
  have hne' : ¬ (userId = "" ∨
      (items.map fun p : String × ℚ => (⟨some p.1, p.2⟩ : ReqItem)) = []) := by
    push_neg
    exact ⟨hu, by simpa using hne⟩
  unfold create
  rw [if_neg hne', runItems_resolved catalog (fun _ => 1099 / 100) items hv hc' 0 [] []]
  simp [jsRound2]

/-- Witness for the amended C4: with the catalog fully unreachable, a
one-item order for three copies succeeds, the line price is the default
10.99, and the total is 32.97. -/
theorem create_catalog_err_defaults_witness :
    create (fun _ => CatalogResp.err) true "o1" "t1" "u1"
        [{ bookId := some "b1", quantity := 3 }] [] =
      (CreateResult.created
        { id := "o1", userId := "u1",
          items := [{ bookId := "b1", quantity := 3, price := some (1099 / 100) }],
          totalAmount := some (3297 / 100), status := "pending", createdAt := "t1" },
       [{ id := "o1", userId := "u1",
          items := [{ bookId := "b1", quantity := 3, price := some (1099 / 100) }],
          totalAmount := some (3297 / 100), status := "pending", createdAt := "t1" }],
       ["b1"]) := by
  have h := create_catalog_err_defaults (fun _ => CatalogResp.err) true "o1" "t1" "u1"
    [("b1", 3)] [] (by simp) (by simp)
    (by intro p hp; simp at hp; rw [hp]; exact ⟨by simp, by norm_num⟩)
    (fun p _ => rfl)
  simp only [List.map_cons, List.map_nil, List.sum_cons, List.sum_nil] at h
  norm_num [round2, Int.floor_eq_iff] at h ⊢
  exact h

/-- Counterexample to C4 as stated: when the catalog lookup yields a 2xx
response whose body has no numeric price (a malformed response, so the
lookup "fails" in the claim's sense), the stored line price is the
undefined value, not the default 10.99 (creation still succeeds, with a
NaN totalAmount). -/
theorem create_malformed_price_cex :
    create (fun _ => CatalogResp.ok none) true "o1" "t1" "u1"
        [{ bookId := some "b1", quantity := 1 }] [] =
      (CreateResult.created
        { id := "o1", userId := "u1",
          items := [{ bookId := "b1", quantity := 1, price := none }],
          totalAmount := none, status := "pending", createdAt := "t1" },
       [{ id := "o1", userId := "u1",
          items := [{ bookId := "b1", quantity := 1, price := none }],
          totalAmount := none, status := "pending", createdAt := "t1" }],
       ["b1"]) ∧
    (none : JSNum) ≠ some (1099 / 100) := by
  constructor
  · simp only [create, runItems, itemInvalid, resolvePrice, jsMul, jsAdd, jsRound2]
    norm_num
    simp
  · simp

/-- Claim C5: the outcome of order creation (result, store, and issued
catalog lookups) does not depend on whether the Identity Service lookup
succeeded; the source awaits that lookup inside a try/catch that ignores
both success and failure. -/
theorem create_identity_independent (catalog : String → CatalogResp)
    (a b : Bool) (newId createdAt userId : String)
    (items : List ReqItem) (store : Store) :
    create catalog a newId createdAt userId items store =
      create catalog b newId createdAt userId items store := rfl

/-- Claim C6 is violated by the code: a fractional quantity of 1.5 passes
the validation check (which only rejects falsy or non-positive
quantities), so the order is created with the non-integer quantity stored
in its line; the total 10.99 times 1.5 rounds to 16.49. -/
theorem create_fractional_quantity_accepted :
    create (fun _ => CatalogResp.err) true "o1" "t1" "u1"
        [{ bookId := some "b1", quantity := 3 / 2 }] [] =
      (CreateResult.created
        { id := "o1", userId := "u1",
          items := [{ bookId := "b1", quantity := 3 / 2, price := some (1099 / 100) }],
          totalAmount := some (1649 / 100), status := "pending", createdAt := "t1" },
       [{ id := "o1", userId := "u1",
          items := [{ bookId := "b1", quantity := 3 / 2, price := some (1099 / 100) }],
          totalAmount := some (1649 / 100), status := "pending", createdAt := "t1" }],
       ["b1"]) := by
  simp only [create, runItems, itemInvalid, resolvePrice, jsMul, jsAdd, jsRound2]
  norm_num
  simp
  norm_num [round2, Int.floor_eq_iff]

/-- Claim C7: a status value outside the five recognized ones makes
setStatus fail with the 400 validation error and leaves the whole store
(hence every order's status) unchanged, for any id; and a recognized
status with an id matching no stored order fails with the 404 error, again
leaving the store unchanged. -/
theorem setStatus_invalid_or_absent (id status : String) (store : Store) :
    (status ∉ validStatuses →
      setStatus id status store = (PatchResult.badRequest "Valid status is required", store)) ∧
    (status ∈ validStatuses → (∀ o ∈ store, o.id ≠ id) →
      setStatus id status store = (PatchResult.notFound "Order not found", store)) := by
  constructor
  · intro hs
    simp [setStatus, hs]
  · intro hs habs
    have hne : status ≠ "" := by
      rintro rfl
      simp [validStatuses] at hs
    rw [setStatus, if_neg (by push_neg; exact ⟨hne, hs⟩),
      updateStatus_eq_none id status store habs]

/-- Witness for C7: on a one-order store, a bogus status yields the 400
error with the store unchanged, and a recognized status with an unknown id
yields the 404 error with the store unchanged. -/
theorem setStatus_invalid_or_absent_witness :
    setStatus "o1" "bogus"
        [{ id := "o1", userId := "u1", items := [], totalAmount := some 0,
           status := "pending", createdAt := "t1" }] =
      (PatchResult.badRequest "Valid status is required",
       [{ id := "o1", userId := "u1", items := [], totalAmount := some 0,
          status := "pending", createdAt := "t1" }]) ∧
    setStatus "zzz" "shipped"
        [{ id := "o1", userId := "u1", items := [], totalAmount := some 0,
           status := "pending", createdAt := "t1" }] =
      (PatchResult.notFound "Order not found",
       [{ id := "o1", userId := "u1", items := [], totalAmount := some 0,
          status := "pending", createdAt := "t1" }]) := by
  constructor
  · exact (setStatus_invalid_or_absent "o1" "bogus" _).1 (by simp [validStatuses])
  · exact (setStatus_invalid_or_absent "zzz" "shipped" _).2 (by simp [validStatuses])
      (by intro o ho; simp at ho; rw [ho]; simp)

/-- Claim C8: cancelling an id present in the store always succeeds, with
no guard on the current status (the witness cancels a delivered order):
the first matching order's status becomes "cancelled", the order stays in
the store in its position with all other fields intact, every other order
is untouched, and the response carries the updated order; on an id
matching no order, cancel fails with the 404 error and the store is
unchanged. -/
theorem cancel_spec (id : String) :
    (∀ (pre post : List Order) (o : Order), (∀ p ∈ pre, p.id ≠ id) → o.id = id →
      cancel id (pre ++ o :: post) =
        (CancelResult.ok "Order cancelled successfully" { o with status := "cancelled" },
         pre ++ { o with status := "cancelled" } :: post)) ∧
    (∀ store : Store, (∀ o ∈ store, o.id ≠ id) →
      cancel id store = (CancelResult.notFound "Order not found", store)) := by
  constructor
  · intro pre post o hpre ho
    rw [cancel, updateStatus_append id "cancelled" pre post o hpre ho]
  · intro store habs
    rw [cancel, updateStatus_eq_none id "cancelled" store habs]

/-- Witness for C8: cancelling a delivered order succeeds and sets its
status to "cancelled" while keeping it in the store; cancelling an absent
id yields the 404 error. -/
theorem cancel_spec_witness :
    cancel "o1"
        [{ id := "o1", userId := "u1", items := [], totalAmount := some 0,
           status := "delivered", createdAt := "t1" }] =
      (CancelResult.ok "Order cancelled successfully"
        { id := "o1", userId := "u1", items := [], totalAmount := some 0,
          status := "cancelled", createdAt := "t1" },
       [{ id := "o1", userId := "u1", items := [], totalAmount := some 0,
          status := "cancelled", createdAt := "t1" }]) ∧
    cancel "zzz"
        [{ id := "o1", userId := "u1", items := [], totalAmount := some 0,
           status := "delivered", createdAt := "t1" }] =
      (CancelResult.notFound "Order not found",
       [{ id := "o1", userId := "u1", items := [], totalAmount := some 0,
          status := "delivered", createdAt := "t1" }]) := by
  constructor
  · exact (cancel_spec "o1").1 []
      [{ id := "o1", userId := "u1", items := [], totalAmount := some 0,
         status := "delivered", createdAt := "t1" }].tail _ (by simp) rfl
  · exact (cancel_spec "zzz").2 _ (by intro o ho; simp at ho; rw [ho]; simp)

/-- Claim C9: the list operation equals a single conjunctive filter over
the store, each provided query constraining the matching field and an
absent query imposing no constraint; the result is a sublist of the store,
so it keeps the store's insertion order.  With only a userId filter it is
exactly the subset of orders with that userId. -/
theorem listOrders_conjunctive (u? s? : Option String) (store : Store) :
    listOrders u? s? store = store.filter (fun o =>
      (match u? with
       | none => true
       | some u => decide (o.userId = u)) &&
      (match s? with
       | none => true
       | some s => decide (o.status = s))) ∧
    (listOrders u? s? store).Sublist store := by
  have heq : listOrders u? s? store = store.filter (fun o =>
      (match u? with
       | none => true
       | some u => decide (o.userId = u)) &&
      (match s? with
       | none => true
       | some s => decide (o.status = s))) := by
    cases u? <;> cases s? <;>
      simp [listOrders, List.filter_filter, Bool.and_comm]
  exact ⟨heq, heq ▸ List.filter_sublist store⟩

/-- Claim C10: a successful setStatus with a recognized status on a
present id replaces exactly the first matching order by the same record
with only its status field overwritten (id, userId, items, totalAmount,
createdAt untouched) and returns it; every other order, before or after
it, is unchanged. -/
theorem setStatus_frame (id status : String) (pre post : List Order) (o : Order)
    (hs : status ∈ validStatuses) (hpre : ∀ p ∈ pre, p.id ≠ id) (ho : o.id = id) :
    setStatus id status (pre ++ o :: post) =
      (PatchResult.ok { o with status := status },
       pre ++ { o with status := status } :: post) := by
  have hne : status ≠ "" := by
    rintro rfl
    simp [validStatuses] at hs
  rw [setStatus, if_neg (by push_neg; exact ⟨hne, hs⟩),
    updateStatus_append id status pre post o hpre ho]

/-- Witness for C10: shipping the middle order of a three-order store
changes only that order's status and no other field or order. -/
theorem setStatus_frame_witness :
    setStatus "o2" "shipped"
        [{ id := "o1", userId := "u1", items := [], totalAmount := some 0,
           status := "pending", createdAt := "t1" },
         { id := "o2", userId := "u2", items := [], totalAmount := some 5,
           status := "pending", createdAt := "t2" },
         { id := "o3", userId := "u3", items := [], totalAmount := some 7,
           status := "confirmed", createdAt := "t3" }] =
      (PatchResult.ok
        { id := "o2", userId := "u2", items := [], totalAmount := some 5,
          status := "shipped", createdAt := "t2" },
       [{ id := "o1", userId := "u1", items := [], totalAmount := some 0,
          status := "pending", createdAt := "t1" },
        { id := "o2", userId := "u2", items := [], totalAmount := some 5,
          status := "shipped", createdAt := "t2" },
        { id := "o3", userId := "u3", items := [], totalAmount := some 7,
          status := "confirmed", createdAt := "t3" }]) := by
  have h := setStatus_frame "o2" "shipped"
    [{ id := "o1", userId := "u1", items := [], totalAmount := some 0,
       status := "pending", createdAt := "t1" }]
    [{ id := "o3", userId := "u3", items := [], totalAmount := some 7,
       status := "confirmed", createdAt := "t3" }]
    { id := "o2", userId := "u2", items := [], totalAmount := some 5,
      status := "pending", createdAt := "t2" }
    (by simp [validStatuses]) (by intro p hp; simp at hp; rw [hp]; simp) rfl
  simpa using h

/-- Claim C3: the gateway health response always reports the gateway
itself "healthy"; when the probes run, each backend is reported healthy
exactly when its bounded-time probe succeeded and unhealthy exactly when
it failed (non-success response or timeout); when the probes never run
(the outer try fails before issuing them), every backend is reported
unknown. -/
theorem checkAll_spec (ax b u o : Bool) (ts : String) :
    (checkAll ax b u o ts).gateway = "healthy" ∧
    (ax = true →
      (((checkAll ax b u o ts).books = HStatus.healthy ↔ b = true) ∧
       ((checkAll ax b u o ts).books = HStatus.unhealthy ↔ b = false) ∧
       ((checkAll ax b u o ts).users = HStatus.healthy ↔ u = true) ∧
       ((checkAll ax b u o ts).users = HStatus.unhealthy ↔ u = false) ∧
       ((checkAll ax b u o ts).orders = HStatus.healthy ↔ o = true) ∧
       ((checkAll ax b u o ts).orders = HStatus.unhealthy ↔ o = false))) ∧
    (ax = false →
      (checkAll ax b u o ts).books = HStatus.unknown ∧
      (checkAll ax b u o ts).users = HStatus.unknown ∧
      (checkAll ax b u o ts).orders = HStatus.unknown) := by
  cases ax <;> cases b <;> cases u <;> cases o <;> simp [checkAll]

/-- Witness for C3: with the books and orders probes succeeding and the
users probe failing, the response reports healthy, unhealthy, healthy
respectively and the gateway healthy; with the probes never run, the books
backend is reported unknown. -/
theorem checkAll_spec_witness :
    (checkAll true true false true "t").gateway = "healthy" ∧
    ((checkAll true true false true "t").books = HStatus.healthy ↔ true = true) ∧
    ((checkAll true true false true "t").users = HStatus.unhealthy ↔ false = false) ∧
    (checkAll false true false true "t").books = HStatus.unknown := by
  refine ⟨(checkAll_spec true true false true "t").1, ?_, ?_, ?_⟩
  · exact ((checkAll_spec true true false true "t").2.1 rfl).1
  · exact ((checkAll_spec true true false true "t").2.1 rfl).2.2.2.1
  · exact ((checkAll_spec false true false true "t").2.2 rfl).1
